import Mathlib

/-!
Shallow embedding of `src/bebopr_r2.c` (BeBoPr board-configuration and
power-sequencing module) and proofs about it.

Conventions of the embedding:
* C `double` constants are modelled as `ℚ`; the module only returns compiled-in
  decimal constants and never performs floating-point arithmetic on them.
* C functions returning `int` keep `Int` as their return type.
* The process-wide mutable statics (`current_kernel`, `kernel_release`,
  `use_pololu_drivers`, the `*_cal_pos` variables) become explicit state that
  is threaded through the corresponding functions.
* Calls into external subsystems (`uname`, `analog_config`, `temp_config`,
  `pwm_config`, `heater_config`, `eeprom_get_step_io_config`) are out of scope
  of this module; their outcomes are supplied by an `Env` value and the calls
  actually made are recorded in a trace.
* `fprintf( stderr, ...)` diagnostic lines are modelled by an enumeration
  `Msg`, one constructor per distinct diagnostic in the source.
-/

namespace BeBoPr

/-- The `kernel_type` enumeration used by `get_kernel_type`
(values `e_kernel_unknown`, `e_kernel_3_2`, `e_kernel_3_8`, `e_kernel_other`). -/
inductive kernel_type where
  | e_kernel_unknown
  | e_kernel_3_2
  | e_kernel_3_8
  | e_kernel_other
deriving DecidableEq, Repr

/-- The two file-scope statics of the kernel detector:
`static kernel_type current_kernel` and `static char kernel_release[50]`. -/
structure KState where
  current_kernel : kernel_type
  kernel_release : String
deriving DecidableEq, Repr

/-- Initial values of the statics: `current_kernel = e_kernel_unknown`,
`kernel_release[50] = { 0 }` (the empty string). -/
def initialKState : KState :=
  { current_kernel := kernel_type.e_kernel_unknown, kernel_release := "" }

/-- Result of one call to `get_kernel_type`: the returned value, the statics
after the call, and whether the call queried the operating system
(`uname( &u)` executed). -/
structure KQuery where
  result : kernel_type
  state : KState
  queried : Bool
deriving DecidableEq, Repr

/-- `strncmp( s, t, n) == 0` for NUL-free C strings: the first `n` characters
agree (comparison stops early at the end of the shorter string, which the
`List.take` on both sides reproduces). -/
def strncmp_eq (s t : String) (n : Nat) : Bool :=
  s.data.take n == t.data.take n

/-- `strncpy( kernel_release, u.release, sizeof( kernel_release))` followed by
`kernel_release[ sizeof( kernel_release) - 1] = '\0'`: the stored string is the
release truncated to the first 49 characters. -/
def store_release (r : String) : String :=
  String.mk (r.data.take 49)

/-- `get_kernel_type` from `src/bebopr_r2.c` lines 236-253.  The operating
system's answer to `uname` is modelled as `Option String` (`none` = the call
returned nonzero, `some r` = it filled in release string `r`). -/
def get_kernel_type (uname : Option String) (s : KState) : KQuery :=
  if s.current_kernel = kernel_type.e_kernel_unknown then
    match uname with
    | some r =>
        let ck :=
          if strncmp_eq r "3.2" 3 then kernel_type.e_kernel_3_2
          else if strncmp_eq r "3.8" 3 then kernel_type.e_kernel_3_8
          else kernel_type.e_kernel_other
        { result := ck
          state := { current_kernel := ck, kernel_release := store_release r }
          queried := true }
    | none =>
        { result := s.current_kernel, state := s, queried := true }
  else
    { result := s.current_kernel, state := s, queried := false }

example :
    (get_kernel_type (some "3.8.13") initialKState).result
      = kernel_type.e_kernel_3_8 := by decide

example :
    (get_kernel_type (some "3.2.0-psp") initialKState).result
      = kernel_type.e_kernel_3_2 := by decide

example :
    (get_kernel_type (some "4.19.1") initialKState).result
      = kernel_type.e_kernel_other := by decide

example :
    get_kernel_type none initialKState
      = { result := kernel_type.e_kernel_unknown, state := initialKState,
          queried := true } := by decide

/-- Modelled from the spec: the `axis_e` enumeration is declared in
`bebopr.h`, which is not under `src/`.  The spec's data model lists the Axis
set as {X, Y, Z, E, …, undefined}; `undefined_axis` stands for any axis value
outside {X, Y, Z, E}, i.e. whatever reaches the `default:` label of the
`switch` statements in the accessors. -/
inductive axis_e where
  | x_axis
  | y_axis
  | z_axis
  | e_axis
  | undefined_axis
deriving DecidableEq, Repr

/-- `config_axis_has_min_limit_switch`, lines 315-323. -/
def config_axis_has_min_limit_switch (axis : axis_e) : Int :=
  match axis with
  | axis_e.x_axis => 1
  | axis_e.y_axis => 1
  | axis_e.z_axis => 1
  | _ => 0

/-- `config_axis_has_max_limit_switch`, lines 325-333. -/
def config_axis_has_max_limit_switch (axis : axis_e) : Int :=
  match axis with
  | axis_e.x_axis => 0
  | axis_e.y_axis => 0
  | axis_e.z_axis => 1
  | _ => 0

/-- `config_min_limit_switch_is_active_low`, lines 338-346. -/
def config_min_limit_switch_is_active_low (axis : axis_e) : Int :=
  match axis with
  | axis_e.x_axis => 1
  | axis_e.y_axis => 1
  | axis_e.z_axis => 0
  | _ => 0

/-- `config_max_limit_switch_is_active_low`, lines 348-356. -/
def config_max_limit_switch_is_active_low (axis : axis_e) : Int :=
  match axis with
  | axis_e.x_axis => 0
  | axis_e.y_axis => 0
  | axis_e.z_axis => 1
  | _ => 0

/-- `config_get_step_size`, lines 366-398 (the `#if 0` TEST RIG block is
compiled out; the live PRUSA values are used).  Step size per axis in [m]. -/
def config_get_step_size (axis : axis_e) : ℚ :=
  match axis with
  | axis_e.x_axis => 15.0e-6
  | axis_e.y_axis => 12.5e-6
  | axis_e.z_axis => 195.3125e-9
  | axis_e.e_axis => 3.345e-6
  | _ => 0.0

/-- `config_get_max_feed`, lines 403-412.  Maximum feed per axis in [mm/min]. -/
def config_get_max_feed (axis : axis_e) : ℚ :=
  match axis with
  | axis_e.x_axis => 22500.0
  | axis_e.y_axis => 16000.0
  | axis_e.z_axis => 300.0
  | axis_e.e_axis => 3000.0
  | _ => 0.0

/-- `config_get_max_accel`, lines 417-426.  Maximum acceleration in [m/s^2]. -/
def config_get_max_accel (axis : axis_e) : ℚ :=
  match axis with
  | axis_e.x_axis => 3.0
  | axis_e.y_axis => 1.0
  | axis_e.z_axis => 1.0
  | axis_e.e_axis => 1.0
  | _ => 0.0

/-- `config_reverse_axis`, lines 431-440. -/
def config_reverse_axis (axis : axis_e) : Int :=
  match axis with
  | axis_e.x_axis => 1
  | axis_e.y_axis => 0
  | axis_e.z_axis => 0
  | axis_e.e_axis => 1
  | _ => 0

/-- `config_min_soft_limit`, lines 450-458.  The C function writes the
position through a `double*` out-parameter and returns 1 when defined,
0 otherwise; the pair (flag, out-value) is modelled as `Option ℚ`. -/
def config_min_soft_limit (axis : axis_e) : Option ℚ :=
  match axis with
  | axis_e.x_axis => some 0.0
  | axis_e.y_axis => some 0.0
  | axis_e.z_axis => some 0.0
  | _ => none

/-- `config_max_soft_limit`, lines 460-468. -/
def config_max_soft_limit (axis : axis_e) : Option ℚ :=
  match axis with
  | axis_e.x_axis => some 215.0
  | axis_e.y_axis => some 200.0
  | axis_e.z_axis => some 60.0
  | _ => none

/-- The three file-scope calibration-position statics, lines 481-483. -/
structure CalState where
  x_cal_pos : ℚ
  y_cal_pos : ℚ
  z_cal_pos : ℚ
deriving DecidableEq, Repr

/-- Initial values: `x_cal_pos = 0.0`, `y_cal_pos = 0.0`,
`z_cal_pos = -2.7955E-3` (sensor 2.8 mm below table level). -/
def initialCalState : CalState :=
  { x_cal_pos := 0.0, y_cal_pos := 0.0, z_cal_pos := -2.7955e-3 }

/-- `config_set_cal_pos`, lines 485-493: stores `pos` into the static of the
given axis and returns 1; for any other axis returns 0 and stores nothing. -/
def config_set_cal_pos (axis : axis_e) (pos : ℚ) (s : CalState) :
    Int × CalState :=
  match axis with
  | axis_e.x_axis => (1, { s with x_cal_pos := pos })
  | axis_e.y_axis => (1, { s with y_cal_pos := pos })
  | axis_e.z_axis => (1, { s with z_cal_pos := pos })
  | _ => (0, s)

/-- `config_min_switch_pos`, lines 495-504: writes the stored calibration
position through the out-parameter and returns 1 for X/Y/Z, returns 0
otherwise; modelled as `Option ℚ`. -/
def config_min_switch_pos (axis : axis_e) (s : CalState) : Option ℚ :=
  match axis with
  | axis_e.x_axis => some s.x_cal_pos
  | axis_e.y_axis => some s.y_cal_pos
  | axis_e.z_axis => some s.z_cal_pos
  | _ => none

/-- `config_max_switch_pos`, lines 506-515: every case returns 0 (the
`z_axis` alternative writing `z_cal_pos` is commented out in the source). -/
def config_max_switch_pos (axis : axis_e) : Option ℚ :=
  match axis with
  | axis_e.x_axis => none
  | axis_e.y_axis => none
  | axis_e.z_axis => none
  | _ => none

/-- `config_get_home_release_feed`, lines 521-529. -/
def config_get_home_release_feed (axis : axis_e) : ℚ :=
  match axis with
  | axis_e.x_axis => 150.0
  | axis_e.y_axis => 150.0
  | axis_e.z_axis => 150.0
  | _ => 0.0

/-- `config_get_home_max_feed`, lines 535-543. -/
def config_get_home_max_feed (axis : axis_e) : ℚ :=
  match axis with
  | axis_e.x_axis => 3000.0
  | axis_e.y_axis => 3000.0
  | axis_e.z_axis => 450.0
  | _ => 0.0

example : config_get_step_size axis_e.x_axis = 3 / 200000 := by
  norm_num [config_get_step_size]

example : initialCalState.z_cal_pos = -5591 / 2000000 := by
  norm_num [initialCalState]

/-- The compile-time hardware-variant flags that `bebopr_pre_init`,
`bebopr_post_init` and `bebopr_exit` branch on (`#ifdef BONE_BRIDGE`,
`#if defined( BONE_BRIDGE) || defined( BONE_ENA_PATCH)`). -/
structure Build where
  bone_bridge : Bool
  bone_ena_patch : Bool
deriving DecidableEq, Repr

/-- The four table-registration calls `bebopr_pre_init` makes into external
subsystems, in source order. -/
inductive Stage where
  | analog
  | temp
  | pwm
  | heater
deriving DecidableEq, Repr

/-- The `fprintf( stderr, ...)` diagnostic lines of `bebopr_pre_init`, one
constructor per distinct line (lines 268, 273, 277, 284, 289, 294, 299, 307). -/
inductive Msg where
  | not_compatible_with_kernel
  | configured_for_kernel
  | bridge_needs_devicetree_kernel
  | analog_config_failed
  | temp_config_failed
  | pwm_config_failed
  | heater_config_failed
  | using_stepper_driver_configuration
deriving DecidableEq, Repr

/-- Outcomes of the external collaborators called by `bebopr_pre_init`:
the `uname` release string (`none` = the query failed) and the `int` results
of `analog_config`, `temp_config`, `pwm_config`, `heater_config` and
`eeprom_get_step_io_config`. -/
structure Env where
  uname : Option String
  analog_config : Int
  temp_config : Int
  pwm_config : Int
  heater_config : Int
  eeprom_get_step_io_config : Int
deriving DecidableEq, Repr

/-- What one call of `bebopr_pre_init` did: its return value, the kernel
detector statics afterwards, the table-registration calls made (in order),
the stderr diagnostics emitted (in order), and `use_pololu_drivers`
afterwards. -/
structure PreOut where
  result : Int
  kstate : KState
  calls : List Stage
  msgs : List Msg
  use_pololu : Int
deriving DecidableEq, Repr

/-- `config_use_pololu_drivers`, lines 358-361: returns the static
`use_pololu_drivers` (initially 1). -/
def config_use_pololu_drivers (use_pololu_drivers : Int) : Int :=
  use_pololu_drivers

/-- `bebopr_pre_init`, lines 255-311.

`tb6560_marker` is the value of `TB6560_DRIVERS` from `eeprom.h` (a header
that is not part of this module); `up` is the static `use_pololu_drivers`
entering the call (1 at process start).

After the first `get_kernel_type()` call returns a value other than
`e_kernel_unknown`, the statics are settled and the remaining two
`get_kernel_type()` calls (lines 274 and 276) return the same cached value
without touching the state (lemma `get_kernel_type_cached` below), so the
resolved value `k` is used for them directly. -/
def bebopr_pre_init (b : Build) (tb6560_marker : Int) (env : Env)
    (ks : KState) (up : Int) : PreOut :=
  let q := get_kernel_type env.uname ks
  let k := q.result
  let s := q.state
  if k = kernel_type.e_kernel_unknown then
    { result := -1, kstate := s, calls := [],
      msgs := [Msg.not_compatible_with_kernel], use_pololu := up }
  else if b.bone_bridge = true ∧ k = kernel_type.e_kernel_3_2 then
    { result := -1, kstate := s, calls := [],
      msgs := [Msg.configured_for_kernel, Msg.bridge_needs_devicetree_kernel],
      use_pololu := up }
  else if env.analog_config < 0 then
    { result := env.analog_config, kstate := s, calls := [Stage.analog],
      msgs := [Msg.configured_for_kernel, Msg.analog_config_failed],
      use_pololu := up }
  else if env.temp_config < 0 then
    { result := env.temp_config, kstate := s,
      calls := [Stage.analog, Stage.temp],
      msgs := [Msg.configured_for_kernel, Msg.temp_config_failed],
      use_pololu := up }
  else if env.pwm_config < 0 then
    { result := env.pwm_config, kstate := s,
      calls := [Stage.analog, Stage.temp, Stage.pwm],
      msgs := [Msg.configured_for_kernel, Msg.pwm_config_failed],
      use_pololu := up }
  else if env.heater_config < 0 then
    { result := env.heater_config, kstate := s,
      calls := [Stage.analog, Stage.temp, Stage.pwm, Stage.heater],
      msgs := [Msg.configured_for_kernel, Msg.heater_config_failed],
      use_pololu := up }
  else
    { result := 0, kstate := s,
      calls := [Stage.analog, Stage.temp, Stage.pwm, Stage.heater],
      msgs := [Msg.configured_for_kernel,
               Msg.using_stepper_driver_configuration],
      use_pololu :=
        if env.eeprom_get_step_io_config = tb6560_marker then 0 else up }

/-- One GPIO write, exactly as issued through the two helpers from `gpio.h`:
`gpio_write_int_value_to_file( file, pin)` (used with "export"/"unexport")
and `gpio_write_value_to_pin_file( pin, file, value)` (used with
"direction"/"value"). -/
inductive GpioOp where
  | write_int_value_to_file (file : String) (pin : Nat)
  | write_value_to_pin_file (pin : Nat) (file : String) (value : String)
deriving DecidableEq, Repr

/-- The GPIO writes issued by `bebopr_post_init`, lines 579-610, as a
function of the hardware variant and the resolved kernel generation
(`get_kernel_type()` is settled by the time `bebopr_post_init` runs). -/
def bebopr_post_init_gpio (b : Build) (k : kernel_type) : List GpioOp :=
  if b.bone_bridge = true ∨ b.bone_ena_patch = true then
    (if k = kernel_type.e_kernel_3_2 then
      [GpioOp.write_int_value_to_file "export" 66,
       GpioOp.write_value_to_pin_file 66 "direction" "out"]
    else []) ++
    [GpioOp.write_value_to_pin_file 66 "value" "0"]
  else
    (if k = kernel_type.e_kernel_3_2 then
      [GpioOp.write_int_value_to_file "export" 38,
       GpioOp.write_value_to_pin_file 38 "direction" "out",
       GpioOp.write_int_value_to_file "export" 34,
       GpioOp.write_value_to_pin_file 34 "direction" "out"]
    else []) ++
    [GpioOp.write_value_to_pin_file 38 "value" "1",
     GpioOp.write_value_to_pin_file 34 "value" "0"]

/-- The GPIO writes issued by `bebopr_exit`, lines 612-631. -/
def bebopr_exit_gpio (b : Build) (k : kernel_type) : List GpioOp :=
  if b.bone_bridge = true ∨ b.bone_ena_patch = true then
    [GpioOp.write_value_to_pin_file 66 "value" "1"] ++
    (if k = kernel_type.e_kernel_3_2 then
      [GpioOp.write_value_to_pin_file 66 "direction" "in",
       GpioOp.write_int_value_to_file "unexport" 66]
    else [])
  else
    [GpioOp.write_value_to_pin_file 38 "value" "1",
     GpioOp.write_value_to_pin_file 34 "value" "0"] ++
    (if k = kernel_type.e_kernel_3_2 then
      [GpioOp.write_value_to_pin_file 38 "direction" "in",
       GpioOp.write_int_value_to_file "unexport" 38,
       GpioOp.write_value_to_pin_file 34 "direction" "in",
       GpioOp.write_int_value_to_file "unexport" 34]
    else [])

/-- The opposite signal level: restoring a line written active to its
inactive level writes the complemented value. -/
def invert_level (v : String) : String :=
  if v = "0" then "1" else if v = "1" then "0" else v

/-- The mirror-image property claimed for a hardware-variant/kernel
combination: every level written by `bebopr_post_init` is written back
inverted (restored to its pre-power-on, inactive level) by `bebopr_exit`,
and `bebopr_exit` unexports exactly the pins `bebopr_post_init` exported,
which happens exactly on the 3.2-legacy kernel. -/
def power_mirror (b : Build) (k : kernel_type) : Prop :=
  (∀ pin v,
      GpioOp.write_value_to_pin_file pin "value" v ∈ bebopr_post_init_gpio b k →
      GpioOp.write_value_to_pin_file pin "value" (invert_level v)
        ∈ bebopr_exit_gpio b k) ∧
  (∀ pin,
      GpioOp.write_int_value_to_file "unexport" pin ∈ bebopr_exit_gpio b k ↔
      (k = kernel_type.e_kernel_3_2 ∧
       GpioOp.write_int_value_to_file "export" pin
         ∈ bebopr_post_init_gpio b k))

/-! ## Helper lemmas -/

theorem get_kernel_type_cached (u : Option String) (s : KState)
    (h : s.current_kernel ≠ kernel_type.e_kernel_unknown) :
    get_kernel_type u s =
      { result := s.current_kernel, state := s, queried := false } := by
  simp [get_kernel_type, h]

theorem get_kernel_type_some_result (r : String) (s : KState)
    (h : s.current_kernel = kernel_type.e_kernel_unknown) :
    (get_kernel_type (some r) s).result ≠ kernel_type.e_kernel_unknown ∧
    (get_kernel_type (some r) s).state.current_kernel =
      (get_kernel_type (some r) s).result := by
  simp only [get_kernel_type, h, if_pos]
  constructor
  · split
    · simp
    · split <;> simp
  · trivial

/-! ## C4: classification of the release string -/

/-- C4: `get_kernel_type` classifies the operating-system release string by
prefix: "3.2" yields `e_kernel_3_2`, "3.8" yields `e_kernel_3_8`, any other
readable release yields `e_kernel_other`, and a failed query yields
`e_kernel_unknown` with no error raised (the function returns normally and
leaves the statics untouched). -/
theorem C4_kernel_classification :
    (∀ (s : KState) (r : String),
        s.current_kernel = kernel_type.e_kernel_unknown →
        (strncmp_eq r "3.2" 3 = true →
          (get_kernel_type (some r) s).result = kernel_type.e_kernel_3_2) ∧
        (strncmp_eq r "3.8" 3 = true →
          (get_kernel_type (some r) s).result = kernel_type.e_kernel_3_8) ∧
        (strncmp_eq r "3.2" 3 = false → strncmp_eq r "3.8" 3 = false →
          (get_kernel_type (some r) s).result = kernel_type.e_kernel_other)) ∧
    (∀ s : KState,
        s.current_kernel = kernel_type.e_kernel_unknown →
        get_kernel_type none s =
          { result := kernel_type.e_kernel_unknown, state := s,
            queried := true }) := by
  constructor
  · intro s r hs
    refine ⟨fun h32 => ?_, fun h38 => ?_, fun h32 h38 => ?_⟩
    · simp [get_kernel_type, hs, h32]
    · have h32 : strncmp_eq r "3.2" 3 = false := by
        revert h38
        simp only [strncmp_eq, beq_iff_eq, beq_eq_false_iff_ne, ne_eq]
        intro h38
        rw [h38]
        decide
      simp [get_kernel_type, hs, h32, h38]
    · simp [get_kernel_type, hs, h32, h38]
  · intro s hs
    simp [get_kernel_type, hs]

/-- Witness for C4 at concrete release strings. -/
theorem C4_kernel_classification_witness :
    (initialKState.current_kernel = kernel_type.e_kernel_unknown ∧
      strncmp_eq "3.2.33" "3.2" 3 = true ∧
      (get_kernel_type (some "3.2.33") initialKState).result
        = kernel_type.e_kernel_3_2) ∧
    (strncmp_eq "3.8.13" "3.8" 3 = true ∧
      (get_kernel_type (some "3.8.13") initialKState).result
        = kernel_type.e_kernel_3_8) ∧
    (strncmp_eq "4.19.1" "3.2" 3 = false ∧ strncmp_eq "4.19.1" "3.8" 3 = false ∧
      (get_kernel_type (some "4.19.1") initialKState).result
        = kernel_type.e_kernel_other) ∧
    get_kernel_type none initialKState =
      { result := kernel_type.e_kernel_unknown, state := initialKState,
        queried := true } :=
  ⟨⟨rfl, by decide,
    (C4_kernel_classification.1 initialKState "3.2.33" rfl).1 (by decide)⟩,
   ⟨by decide,
    (C4_kernel_classification.1 initialKState "3.8.13" rfl).2.1 (by decide)⟩,
   ⟨by decide, by decide,
    (C4_kernel_classification.1 initialKState "4.19.1" rfl).2.2 (by decide)
      (by decide)⟩,
   C4_kernel_classification.2 initialKState rfl⟩

/-! ## C2: memoization of the kernel type -/

/-- C2 counterexample: after a first query that fails (`uname` returns
nonzero), the result `e_kernel_unknown` is not cached — the very next call
queries the operating system again and can return a different value, so the
claim "every subsequent call returns the same value as the first call without
querying the operating system again, for all four outcomes including query
failure" is false. -/
theorem C2_requery_after_failed_first_query :
    (get_kernel_type none initialKState).result
      = kernel_type.e_kernel_unknown ∧
    (get_kernel_type (some "3.8.13")
        (get_kernel_type none initialKState).state).queried = true ∧
    (get_kernel_type (some "3.8.13")
        (get_kernel_type none initialKState).state).result
      = kernel_type.e_kernel_3_8 := by
  decide

/-- C2 amended: after the first call whose operating-system query succeeds
(outcomes 3.2-legacy, 3.8-device-tree and other), the result and the raw
release string are cached: every subsequent call returns the same value and
the same statics without querying the operating system again.  A failed
first query returns `e_kernel_unknown` but caches nothing: the statics are
left in their initial state, so a subsequent call queries again. -/
theorem C2_memoized_after_successful_query (r : String) (u2 : Option String) :
    (get_kernel_type (some r) initialKState).result
      ≠ kernel_type.e_kernel_unknown ∧
    get_kernel_type u2 (get_kernel_type (some r) initialKState).state =
      { result := (get_kernel_type (some r) initialKState).result,
        state := (get_kernel_type (some r) initialKState).state,
        queried := false } ∧
    get_kernel_type none initialKState =
      { result := kernel_type.e_kernel_unknown, state := initialKState,
        queried := true } := by
  obtain ⟨hne, hck⟩ := get_kernel_type_some_result r initialKState rfl
  refine ⟨hne, ?_, by decide⟩
  rw [get_kernel_type_cached u2 _ (by rw [hck]; exact hne), hck]

/-! ## C5-C8: the pre-init orchestrator -/

/-- C5: whenever the resolved kernel generation is `e_kernel_unknown`,
`bebopr_pre_init` returns a failure result (-1, the UnsupportedKernel case,
identified by its diagnostic) and makes none of the four table-registration
calls into the external subsystems. -/
theorem C5_pre_init_unsupported_kernel (b : Build) (tb : Int) (env : Env)
    (ks : KState) (up : Int)
    (h : (get_kernel_type env.uname ks).result = kernel_type.e_kernel_unknown) :
    (bebopr_pre_init b tb env ks up).result = -1 ∧
    (bebopr_pre_init b tb env ks up).calls = [] ∧
    (bebopr_pre_init b tb env ks up).msgs
      = [Msg.not_compatible_with_kernel] := by
  simp [bebopr_pre_init, h]

/-- Witness for C5: a failed `uname` query at process start. -/
theorem C5_pre_init_unsupported_kernel_witness :
    (get_kernel_type
        (Env.uname { uname := none, analog_config := 0, temp_config := 0,
                     pwm_config := 0, heater_config := 0,
                     eeprom_get_step_io_config := 0 }) initialKState).result
      = kernel_type.e_kernel_unknown ∧
    (bebopr_pre_init { bone_bridge := false, bone_ena_patch := false } 2
        { uname := none, analog_config := 0, temp_config := 0, pwm_config := 0,
          heater_config := 0, eeprom_get_step_io_config := 0 }
        initialKState 1).result = -1 ∧
    (bebopr_pre_init { bone_bridge := false, bone_ena_patch := false } 2
        { uname := none, analog_config := 0, temp_config := 0, pwm_config := 0,
          heater_config := 0, eeprom_get_step_io_config := 0 }
        initialKState 1).calls = [] ∧
    (bebopr_pre_init { bone_bridge := false, bone_ena_patch := false } 2
        { uname := none, analog_config := 0, temp_config := 0, pwm_config := 0,
          heater_config := 0, eeprom_get_step_io_config := 0 }
        initialKState 1).msgs = [Msg.not_compatible_with_kernel] :=
  ⟨by decide,
   (C5_pre_init_unsupported_kernel _ 2 _ initialKState 1 (by decide)).1,
   (C5_pre_init_unsupported_kernel _ 2 _ initialKState 1 (by decide)).2.1,
   (C5_pre_init_unsupported_kernel _ 2 _ initialKState 1 (by decide)).2.2⟩

/-- C6: with the Bridge hardware variant and a resolved 3.2-legacy kernel,
`bebopr_pre_init` returns a failure result (-1, the UnsupportedCombination
case, identified by its diagnostic) before any table registration. -/
theorem C6_pre_init_bridge_needs_devicetree (b : Build) (tb : Int) (env : Env)
    (ks : KState) (up : Int)
    (hb : b.bone_bridge = true)
    (hk : (get_kernel_type env.uname ks).result = kernel_type.e_kernel_3_2) :
    (bebopr_pre_init b tb env ks up).result = -1 ∧
    (bebopr_pre_init b tb env ks up).calls = [] ∧
    (bebopr_pre_init b tb env ks up).msgs
      = [Msg.configured_for_kernel, Msg.bridge_needs_devicetree_kernel] := by
  simp [bebopr_pre_init, hb, hk]

/-- Witness for C6: Bridge build, kernel release "3.2.33". -/
theorem C6_pre_init_bridge_needs_devicetree_witness :
    ({ bone_bridge := true, bone_ena_patch := false : Build }.bone_bridge
        = true) ∧
    (get_kernel_type (some "3.2.33") initialKState).result
      = kernel_type.e_kernel_3_2 ∧
    (bebopr_pre_init { bone_bridge := true, bone_ena_patch := false } 2
        { uname := some "3.2.33", analog_config := 0, temp_config := 0,
          pwm_config := 0, heater_config := 0,
          eeprom_get_step_io_config := 0 }
        initialKState 1).result = -1 ∧
    (bebopr_pre_init { bone_bridge := true, bone_ena_patch := false } 2
        { uname := some "3.2.33", analog_config := 0, temp_config := 0,
          pwm_config := 0, heater_config := 0,
          eeprom_get_step_io_config := 0 }
        initialKState 1).calls = [] :=
  ⟨rfl, by decide,
   (C6_pre_init_bridge_needs_devicetree _ 2 _ initialKState 1 rfl
      (by decide)).1,
   (C6_pre_init_bridge_needs_devicetree _ 2 _ initialKState 1 rfl
      (by decide)).2.1⟩

/-- C7: past the kernel checks, `bebopr_pre_init` performs the four
table-registration calls in the fixed order analog, temp, pwm, heater; the
first subsystem returning a negative result aborts the sequence — its
negative result is returned, a diagnostic identifies the failing stage, and
no later subsystem is called. -/
theorem C7_pre_init_stage_order (b : Build) (tb : Int) (env : Env)
    (ks : KState) (up : Int)
    (h1 : (get_kernel_type env.uname ks).result ≠ kernel_type.e_kernel_unknown)
    (h2 : ¬(b.bone_bridge = true ∧
            (get_kernel_type env.uname ks).result = kernel_type.e_kernel_3_2)) :
    (env.analog_config < 0 →
      (bebopr_pre_init b tb env ks up).result = env.analog_config ∧
      (bebopr_pre_init b tb env ks up).calls = [Stage.analog] ∧
      Msg.analog_config_failed ∈ (bebopr_pre_init b tb env ks up).msgs) ∧
    (0 ≤ env.analog_config → env.temp_config < 0 →
      (bebopr_pre_init b tb env ks up).result = env.temp_config ∧
      (bebopr_pre_init b tb env ks up).calls = [Stage.analog, Stage.temp] ∧
      Msg.temp_config_failed ∈ (bebopr_pre_init b tb env ks up).msgs) ∧
    (0 ≤ env.analog_config → 0 ≤ env.temp_config → env.pwm_config < 0 →
      (bebopr_pre_init b tb env ks up).result = env.pwm_config ∧
      (bebopr_pre_init b tb env ks up).calls
        = [Stage.analog, Stage.temp, Stage.pwm] ∧
      Msg.pwm_config_failed ∈ (bebopr_pre_init b tb env ks up).msgs) ∧
    (0 ≤ env.analog_config → 0 ≤ env.temp_config → 0 ≤ env.pwm_config →
      env.heater_config < 0 →
      (bebopr_pre_init b tb env ks up).result = env.heater_config ∧
      (bebopr_pre_init b tb env ks up).calls
        = [Stage.analog, Stage.temp, Stage.pwm, Stage.heater] ∧
      Msg.heater_config_failed ∈ (bebopr_pre_init b tb env ks up).msgs) ∧
    (0 ≤ env.analog_config → 0 ≤ env.temp_config → 0 ≤ env.pwm_config →
      0 ≤ env.heater_config →
      (bebopr_pre_init b tb env ks up).result = 0 ∧
      (bebopr_pre_init b tb env ks up).calls
        = [Stage.analog, Stage.temp, Stage.pwm, Stage.heater]) := by
  refine ⟨fun ha => ?_, fun ha ht => ?_, fun ha ht hp => ?_,
          fun ha ht hp hh => ?_, fun ha ht hp hh => ?_⟩
  · simp [bebopr_pre_init, h1, h2, ha]
  · simp [bebopr_pre_init, h1, h2, ha.not_lt, ht]
  · simp [bebopr_pre_init, h1, h2, ha.not_lt, ht.not_lt, hp]
  · simp [bebopr_pre_init, h1, h2, ha.not_lt, ht.not_lt, hp.not_lt, hh]
  · simp [bebopr_pre_init, h1, h2, ha.not_lt, ht.not_lt, hp.not_lt, hh.not_lt]

/-- Witness for C7: the pwm stage rejects its table (result -3), the earlier
stages succeed. -/
theorem C7_pre_init_stage_order_witness :
    ((get_kernel_type
        (Env.uname { uname := some "3.8.13", analog_config := 0,
                     temp_config := 0, pwm_config := -3, heater_config := 0,
                     eeprom_get_step_io_config := 0 }) initialKState).result
      ≠ kernel_type.e_kernel_unknown) ∧
    (bebopr_pre_init { bone_bridge := false, bone_ena_patch := false } 2
        { uname := some "3.8.13", analog_config := 0, temp_config := 0,
          pwm_config := -3, heater_config := 0,
          eeprom_get_step_io_config := 0 }
        initialKState 1).result = -3 ∧
    (bebopr_pre_init { bone_bridge := false, bone_ena_patch := false } 2
        { uname := some "3.8.13", analog_config := 0, temp_config := 0,
          pwm_config := -3, heater_config := 0,
          eeprom_get_step_io_config := 0 }
        initialKState 1).calls = [Stage.analog, Stage.temp, Stage.pwm] :=
  ⟨by decide,
   ((C7_pre_init_stage_order _ 2 _ initialKState 1 (by decide)
      (by decide)).2.2.1 (by decide) (by decide) (by decide)).1,
   ((C7_pre_init_stage_order _ 2 _ initialKState 1 (by decide)
      (by decide)).2.2.1 (by decide) (by decide) (by decide)).2.1⟩

/-- C8: with the kernel checks passed and all four registrations accepted,
`bebopr_pre_init` succeeds (returns 0) for every outcome of the
persistent-storage read, and `config_use_pololu_drivers` subsequently
returns 0 (TB6560) exactly when the read returned the `TB6560_DRIVERS`
marker; in particular a failed read (negative result) selects Pololu, the
marker being a non-negative stored value. -/
theorem C8_stepper_personality (b : Build) (tb : Int) (env : Env)
    (ks : KState)
    (h1 : (get_kernel_type env.uname ks).result ≠ kernel_type.e_kernel_unknown)
    (h2 : ¬(b.bone_bridge = true ∧
            (get_kernel_type env.uname ks).result = kernel_type.e_kernel_3_2))
    (ha : 0 ≤ env.analog_config) (ht : 0 ≤ env.temp_config)
    (hp : 0 ≤ env.pwm_config) (hh : 0 ≤ env.heater_config)
    (hm : 0 ≤ tb) :
    (bebopr_pre_init b tb env ks 1).result = 0 ∧
    config_use_pololu_drivers (bebopr_pre_init b tb env ks 1).use_pololu
      = (if env.eeprom_get_step_io_config = tb then 0 else 1) ∧
    (env.eeprom_get_step_io_config < 0 →
      config_use_pololu_drivers (bebopr_pre_init b tb env ks 1).use_pololu
        = 1) := by
  have hout :
      (bebopr_pre_init b tb env ks 1).result = 0 ∧
      (bebopr_pre_init b tb env ks 1).use_pololu
        = (if env.eeprom_get_step_io_config = tb then 0 else 1) := by
    simp [bebopr_pre_init, h1, h2, ha.not_lt, ht.not_lt, hp.not_lt, hh.not_lt]
  refine ⟨hout.1, by rw [config_use_pololu_drivers, hout.2], fun hfail => ?_⟩
  rw [config_use_pololu_drivers, hout.2, if_neg]
  intro heq
  rw [heq] at hfail
  exact absurd hfail (not_lt.mpr hm)

/-- Witness for C8: a failed persistent-storage read (result -1) leaves the
Pololu personality selected and `bebopr_pre_init` still succeeds. -/
theorem C8_stepper_personality_witness :
    ((get_kernel_type
        (Env.uname { uname := some "3.8.13", analog_config := 0,
                     temp_config := 0, pwm_config := 0, heater_config := 0,
                     eeprom_get_step_io_config := -1 }) initialKState).result
      ≠ kernel_type.e_kernel_unknown) ∧
    (bebopr_pre_init { bone_bridge := false, bone_ena_patch := false } 2
        { uname := some "3.8.13", analog_config := 0, temp_config := 0,
          pwm_config := 0, heater_config := 0,
          eeprom_get_step_io_config := -1 }
        initialKState 1).result = 0 ∧
    config_use_pololu_drivers
      (bebopr_pre_init { bone_bridge := false, bone_ena_patch := false } 2
        { uname := some "3.8.13", analog_config := 0, temp_config := 0,
          pwm_config := 0, heater_config := 0,
          eeprom_get_step_io_config := -1 }
        initialKState 1).use_pololu = 1 :=
  ⟨by decide,
   (C8_stepper_personality _ 2 _ initialKState (by decide) (by decide)
      (by decide) (by decide) (by decide) (by decide) (by decide)).1,
   (C8_stepper_personality _ 2 _ initialKState (by decide) (by decide)
      (by decide) (by decide) (by decide) (by decide) (by decide)).2.2
      (by decide)⟩

/-! ## C3: totality and values of the per-axis accessors -/

/-- C3 counterexample: not every accessor returns a defined numeric value for
every axis in {X, Y, Z, E}: the max-switch-position accessor returns "not
defined" even for X, and the soft-limit and min-switch-position accessors
return "not defined" for E. -/
theorem C3_counterexample_not_all_defined :
    config_max_switch_pos axis_e.x_axis = none ∧
    config_min_soft_limit axis_e.e_axis = none ∧
    config_max_soft_limit axis_e.e_axis = none ∧
    config_min_switch_pos axis_e.e_axis initialCalState = none :=
  ⟨rfl, rfl, rfl, rfl⟩

/-- C3 amended: every per-axis accessor is total over the Axis enumeration.
The scalar accessors (step size, max feed, max acceleration, direction
reversal, limit-switch presence and polarity, home-release feed, home-max
feed) return the configured constant of the reference configuration for each
axis in {X, Y, Z, E} and their neutral value (0.0 or 0) for any axis outside
{X, Y, Z, E}.  The optional accessors return a defined value exactly where
the reference configuration defines one: min/max soft limits and the
min-switch position for {X, Y, Z} only, and the max-switch position for no
axis; everywhere else they return "not defined". -/
theorem C3_accessor_totality :
    (config_get_step_size axis_e.x_axis = 15.0e-6 ∧
     config_get_step_size axis_e.y_axis = 12.5e-6 ∧
     config_get_step_size axis_e.z_axis = 195.3125e-9 ∧
     config_get_step_size axis_e.e_axis = 3.345e-6 ∧
     config_get_step_size axis_e.undefined_axis = 0.0) ∧
    (config_get_max_feed axis_e.x_axis = 22500.0 ∧
     config_get_max_feed axis_e.y_axis = 16000.0 ∧
     config_get_max_feed axis_e.z_axis = 300.0 ∧
     config_get_max_feed axis_e.e_axis = 3000.0 ∧
     config_get_max_feed axis_e.undefined_axis = 0.0) ∧
    (config_get_max_accel axis_e.x_axis = 3.0 ∧
     config_get_max_accel axis_e.y_axis = 1.0 ∧
     config_get_max_accel axis_e.z_axis = 1.0 ∧
     config_get_max_accel axis_e.e_axis = 1.0 ∧
     config_get_max_accel axis_e.undefined_axis = 0.0) ∧
    (config_reverse_axis axis_e.x_axis = 1 ∧
     config_reverse_axis axis_e.y_axis = 0 ∧
     config_reverse_axis axis_e.z_axis = 0 ∧
     config_reverse_axis axis_e.e_axis = 1 ∧
     config_reverse_axis axis_e.undefined_axis = 0) ∧
    (config_axis_has_min_limit_switch axis_e.x_axis = 1 ∧
     config_axis_has_min_limit_switch axis_e.y_axis = 1 ∧
     config_axis_has_min_limit_switch axis_e.z_axis = 1 ∧
     config_axis_has_min_limit_switch axis_e.e_axis = 0 ∧
     config_axis_has_min_limit_switch axis_e.undefined_axis = 0) ∧
    (config_axis_has_max_limit_switch axis_e.x_axis = 0 ∧
     config_axis_has_max_limit_switch axis_e.y_axis = 0 ∧
     config_axis_has_max_limit_switch axis_e.z_axis = 1 ∧
     config_axis_has_max_limit_switch axis_e.e_axis = 0 ∧
     config_axis_has_max_limit_switch axis_e.undefined_axis = 0) ∧
    (config_min_limit_switch_is_active_low axis_e.x_axis = 1 ∧
     config_min_limit_switch_is_active_low axis_e.y_axis = 1 ∧
     config_min_limit_switch_is_active_low axis_e.z_axis = 0 ∧
     config_min_limit_switch_is_active_low axis_e.e_axis = 0 ∧
     config_min_limit_switch_is_active_low axis_e.undefined_axis = 0) ∧
    (config_max_limit_switch_is_active_low axis_e.x_axis = 0 ∧
     config_max_limit_switch_is_active_low axis_e.y_axis = 0 ∧
     config_max_limit_switch_is_active_low axis_e.z_axis = 1 ∧
     config_max_limit_switch_is_active_low axis_e.e_axis = 0 ∧
     config_max_limit_switch_is_active_low axis_e.undefined_axis = 0) ∧
    (config_get_home_release_feed axis_e.x_axis = 150.0 ∧
     config_get_home_release_feed axis_e.y_axis = 150.0 ∧
     config_get_home_release_feed axis_e.z_axis = 150.0 ∧
     config_get_home_release_feed axis_e.e_axis = 0.0 ∧
     config_get_home_release_feed axis_e.undefined_axis = 0.0) ∧
    (config_get_home_max_feed axis_e.x_axis = 3000.0 ∧
     config_get_home_max_feed axis_e.y_axis = 3000.0 ∧
     config_get_home_max_feed axis_e.z_axis = 450.0 ∧
     config_get_home_max_feed axis_e.e_axis = 0.0 ∧
     config_get_home_max_feed axis_e.undefined_axis = 0.0) ∧
    (config_min_soft_limit axis_e.x_axis = some 0.0 ∧
     config_min_soft_limit axis_e.y_axis = some 0.0 ∧
     config_min_soft_limit axis_e.z_axis = some 0.0 ∧
     config_min_soft_limit axis_e.e_axis = none ∧
     config_min_soft_limit axis_e.undefined_axis = none) ∧
    (config_max_soft_limit axis_e.x_axis = some 215.0 ∧
     config_max_soft_limit axis_e.y_axis = some 200.0 ∧
     config_max_soft_limit axis_e.z_axis = some 60.0 ∧
     config_max_soft_limit axis_e.e_axis = none ∧
     config_max_soft_limit axis_e.undefined_axis = none) ∧
    ((∀ s : CalState,
        config_min_switch_pos axis_e.x_axis s = some s.x_cal_pos) ∧
     (∀ s : CalState,
        config_min_switch_pos axis_e.y_axis s = some s.y_cal_pos) ∧
     (∀ s : CalState,
        config_min_switch_pos axis_e.z_axis s = some s.z_cal_pos) ∧
     (∀ s : CalState, config_min_switch_pos axis_e.e_axis s = none) ∧
     (∀ s : CalState,
        config_min_switch_pos axis_e.undefined_axis s = none)) ∧
    (∀ a : axis_e, config_max_switch_pos a = none) := by
  repeat' apply And.intro
  all_goals first
    | rfl
    | (intro s; rfl)
    | (intro a; cases a <;> rfl)

/-! ## C9 and C10: the calibration positions -/

/-- C9: for every value and every axis in {X, Y, Z}, `config_set_cal_pos`
returns 1 (true) and a subsequent `config_min_switch_pos` on that axis
returns (true, value); the last of several writes wins unconditionally.  For
any axis outside {X, Y, Z}, `config_set_cal_pos` returns 0 (false) and
leaves every stored calibration position unchanged. -/
theorem C9_set_cal_pos (s : CalState) (v w : ℚ) :
    (∀ a : axis_e,
        (a = axis_e.x_axis ∨ a = axis_e.y_axis ∨ a = axis_e.z_axis) →
        (config_set_cal_pos a v s).1 = 1 ∧
        config_min_switch_pos a (config_set_cal_pos a v s).2 = some v ∧
        config_min_switch_pos a
          (config_set_cal_pos a w (config_set_cal_pos a v s).2).2 = some w) ∧
    (∀ a : axis_e,
        ¬(a = axis_e.x_axis ∨ a = axis_e.y_axis ∨ a = axis_e.z_axis) →
        config_set_cal_pos a v s = (0, s)) := by
  constructor
  · rintro a (rfl | rfl | rfl) <;> exact ⟨rfl, rfl, rfl⟩
  · intro a h
    cases a with
    | x_axis => exact absurd (Or.inl rfl) h
    | y_axis => exact absurd (Or.inr (Or.inl rfl)) h
    | z_axis => exact absurd (Or.inr (Or.inr rfl)) h
    | e_axis => rfl
    | undefined_axis => rfl

/-- Witness for C9 on the Z axis with values 1 and 2, plus the no-op on the
E axis. -/
theorem C9_set_cal_pos_witness :
    (axis_e.z_axis = axis_e.x_axis ∨ axis_e.z_axis = axis_e.y_axis ∨
      axis_e.z_axis = axis_e.z_axis) ∧
    (config_set_cal_pos axis_e.z_axis 1 initialCalState).1 = 1 ∧
    config_min_switch_pos axis_e.z_axis
      (config_set_cal_pos axis_e.z_axis 1 initialCalState).2 = some 1 ∧
    config_min_switch_pos axis_e.z_axis
      (config_set_cal_pos axis_e.z_axis 2
        (config_set_cal_pos axis_e.z_axis 1 initialCalState).2).2 = some 2 ∧
    ¬(axis_e.e_axis = axis_e.x_axis ∨ axis_e.e_axis = axis_e.y_axis ∨
      axis_e.e_axis = axis_e.z_axis) ∧
    config_set_cal_pos axis_e.e_axis 1 initialCalState
      = (0, initialCalState) :=
  ⟨by decide,
   ((C9_set_cal_pos initialCalState 1 2).1 axis_e.z_axis (by decide)).1,
   ((C9_set_cal_pos initialCalState 1 2).1 axis_e.z_axis (by decide)).2.1,
   ((C9_set_cal_pos initialCalState 1 2).1 axis_e.z_axis (by decide)).2.2,
   by decide,
   (C9_set_cal_pos initialCalState 1 2).2 axis_e.e_axis (by decide)⟩

/-- C10: before any call to `config_set_cal_pos`, `config_min_switch_pos`
returns (true, 0.0) for X and for Y but (true, -2.7955E-3) for Z: the Z axis
has a nonzero built-in default calibration position. -/
theorem C10_initial_cal_positions :
    config_min_switch_pos axis_e.x_axis initialCalState = some 0.0 ∧
    config_min_switch_pos axis_e.y_axis initialCalState = some 0.0 ∧
    config_min_switch_pos axis_e.z_axis initialCalState
      = some (-2.7955e-3) ∧
    initialCalState.z_cal_pos ≠ 0 := by
  refine ⟨rfl, rfl, rfl, ?_⟩
  norm_num [initialCalState]

/-! ## C1: power-on / power-off mirror images -/

/-- C1: on the stock hardware variant (neither `BONE_BRIDGE` nor
`BONE_ENA_PATCH`), `bebopr_exit` writes the very same levels that
`bebopr_post_init` wrote ("1" to gpio38 and "0" to gpio34, the power-on
levels) instead of the inverted, inactive levels, so the GPIO writes of the
two functions are not mirror images; shown here on the 3.8-device-tree
kernel. -/
theorem C1_stock_exit_rewrites_power_on_levels :
    (GpioOp.write_value_to_pin_file 38 "value" "1"
      ∈ bebopr_post_init_gpio
          { bone_bridge := false, bone_ena_patch := false }
          kernel_type.e_kernel_3_8) ∧
    (GpioOp.write_value_to_pin_file 38 "value" "1"
      ∈ bebopr_exit_gpio { bone_bridge := false, bone_ena_patch := false }
          kernel_type.e_kernel_3_8) ∧
    (GpioOp.write_value_to_pin_file 38 "value" "0"
      ∉ bebopr_exit_gpio { bone_bridge := false, bone_ena_patch := false }
          kernel_type.e_kernel_3_8) ∧
    (GpioOp.write_value_to_pin_file 34 "value" "0"
      ∈ bebopr_post_init_gpio
          { bone_bridge := false, bone_ena_patch := false }
          kernel_type.e_kernel_3_8) ∧
    (GpioOp.write_value_to_pin_file 34 "value" "1"
      ∉ bebopr_exit_gpio { bone_bridge := false, bone_ena_patch := false }
          kernel_type.e_kernel_3_8) ∧
    ¬ power_mirror { bone_bridge := false, bone_ena_patch := false }
        kernel_type.e_kernel_3_8 := by
  refine ⟨by decide, by decide, by decide, by decide, by decide,
          fun h => ?_⟩
  have h38 := h.1 38 "1" (by decide)
  have hinv : invert_level "1" = "0" := by decide
  rw [hinv] at h38
  exact absurd h38 (by decide)

end BeBoPr
